import Mathlib

/-!
Verification development for the sfc MAE flow-offload engine
(drivers/net/sfc/sfc_mae.c, sfc_mae_counter.c).

The definitions below are shallow embeddings of the C functions, translated
from the source.  External device-control-interface calls (efx_mae_*) are
modelled as oracle arguments: a call either fully succeeds (optionally
returning a freshly allocated hardware id) or fully fails, and does not
modify driver-side state except through the documented output parameters.
-/

namespace SfcMae

/-- Invalid sentinel for MAE hardware resource ids (EFX_MAE_RSRC_ID_INVALID,
0xffffffff in efx). -/
def EFX_MAE_RSRC_ID_INVALID : Nat := 0xffffffff

/-! ## Counter subsystem (sfc_mae_counter.c) -/

/-- One counter slot (struct sfc_mae_counter): in-use flag, generation,
accumulated value and reset baseline, each value split into packets/bytes. -/
structure SfcMaeCounter where
  inuse : Bool
  generation_count : Nat
  value_pkts : Nat
  value_bytes : Nat
  reset_pkts : Nat
  reset_bytes : Nat
  deriving DecidableEq

/-- The all-zero slot, the state of freshly initialised slots. -/
def counterZero : SfcMaeCounter :=
  { inuse := false, generation_count := 0, value_pkts := 0, value_bytes := 0,
    reset_pkts := 0, reset_bytes := 0 }

/-- Counter collection (struct sfc_mae_counters) together with its diagnostic
xstats (struct sfc_mae_counters_xstats). -/
structure SfcMaeCounters where
  mae_counters : List SfcMaeCounter
  n_mae_counters : Nat
  not_inuse_update : Nat
  realloc_update : Nat
  deriving DecidableEq

/-- sfc_mae_counters_init: pre-allocate the slot array with
nb_counters_max zeroed slots. -/
def sfc_mae_counters_init (nb_counters_max : Nat) : SfcMaeCounters :=
  { mae_counters := List.replicate nb_counters_max counterZero,
    n_mae_counters := nb_counters_max,
    not_inuse_update := 0, realloc_update := 0 }

/-- sfc_mae_counter_increment: apply one decoded telemetry record to slot
mae_counter_id.  Not-in-use slots and stale generations are counted in the
xstats and leave the slot array untouched. -/
def sfc_mae_counter_increment (cs : SfcMaeCounters)
    (mae_counter_id generation_count pkts bytes : Nat) : SfcMaeCounters :=
  match cs.mae_counters.get? mae_counter_id with
  | none => cs
  | some p =>
    if !p.inuse then
      { cs with not_inuse_update := cs.not_inuse_update + 1 }
    else if generation_count < p.generation_count then
      { cs with realloc_update := cs.realloc_update + 1 }
    else
      let p1 := { p with value_pkts := p.value_pkts + pkts,
                         value_bytes := p.value_bytes + bytes }
      { cs with mae_counters := cs.mae_counters.set mae_counter_id p1 }

/-- sfc_mae_counter_add.  The oracle hw models efx_mae_counters_alloc:
none is an allocation failure (rc passed through, modelled as 12), and
some (id, gen) is a success returning the hardware counter id and the
generation count.  The result is (rc, new collection state, assigned id);
on the out-of-range path the hardware counter is freed again (external)
and no slot is touched. -/
def sfc_mae_counter_add (cs : SfcMaeCounters) (hw : Option (Nat × Nat)) :
    Nat × SfcMaeCounters × Option Nat :=
  match hw with
  | none => (12, cs, none)
  | some (id, gen) =>
    if cs.n_mae_counters ≤ id then
      (14, cs, none)
    else
      let p := cs.mae_counters.getD id counterZero
      let p1 := { p with reset_pkts := p.value_pkts, reset_bytes := p.value_bytes,
                         generation_count := gen, inuse := true }
      (0, { cs with mae_counters := cs.mae_counters.set id p1 }, some id)

/-- sfc_mae_counter_del: clear the in-use flag and free the hardware counter
(external, may fail; it does not touch the slot array either way). -/
def sfc_mae_counter_del (cs : SfcMaeCounters) (mae_id : Nat) (freeRc : Nat) :
    Nat × SfcMaeCounters :=
  if mae_id = EFX_MAE_RSRC_ID_INVALID then (0, cs)
  else
    let p := cs.mae_counters.getD mae_id counterZero
    let p1 := { p with inuse := false }
    (freeRc, { cs with mae_counters := cs.mae_counters.set mae_id p1 })

/-! ### Telemetry packet decode (sfc_mae_parse_counter_packet)

Modelled from the spec: the wire-format constants below come from
efx_regs_mae_counter_format.h, which is part of this repository but not
under src/; per the spec the packet header carries format version, source
identifier, header/payload byte offsets and a record count, each record is
a fixed-width (16-byte) tuple, and the header has a fixed size.  The
concrete numeric values of the expected constants are irrelevant to the
claims, which only concern behaviour relative to them. -/

def ER_RX_SL_PACKETISER_HEADER_WORD_SIZE : Nat := 16

def ERF_SC_PACKETISER_HEADER_VERSION_VALUE : Nat := 2

def ERF_SC_PACKETISER_HEADER_IDENTIFIER_AR : Nat := 0

def ERF_SC_PACKETISER_HEADER_HEADER_OFFSET_DEFAULT : Nat := 4

def ER_RX_SL_PACKETISER_PAYLOAD_WORD_SIZE : Nat := 16

/-- One fixed-width telemetry record: counter index plus low/high halves of
the packet and byte deltas. -/
structure CounterRecord where
  counter_index : Nat
  packet_count_lo : Nat
  packet_count_hi : Nat
  byte_count_lo : Nat
  byte_count_hi : Nat
  deriving DecidableEq

/-- A received telemetry packet as seen by sfc_mae_parse_counter_packet:
mbuf segment count and data length, the Rx-prefix generation count, the
decoded header fields, and the payload records. -/
structure CounterPacket where
  nb_segs : Nat
  data_len : Nat
  generation_count : Nat
  version : Nat
  identifier : Nat
  header_offset : Nat
  payload_offset : Nat
  counter_count : Nat
  records : List CounterRecord
  deriving DecidableEq

/-- sfc_mae_parse_counter_packet: validate the packet and, only if every
check passes, fold all counter_count records into the counter collection.
Any failed check discards the whole packet, leaving the state unchanged. -/
def sfc_mae_parse_counter_packet (pkt : CounterPacket) (cs : SfcMaeCounters) :
    SfcMaeCounters :=
  if pkt.nb_segs ≠ 1 then cs
  else if pkt.data_len < ER_RX_SL_PACKETISER_HEADER_WORD_SIZE then cs
  else if pkt.version ≠ ERF_SC_PACKETISER_HEADER_VERSION_VALUE then cs
  else if pkt.identifier ≠ ERF_SC_PACKETISER_HEADER_IDENTIFIER_AR then cs
  else if pkt.header_offset ≠ ERF_SC_PACKETISER_HEADER_HEADER_OFFSET_DEFAULT then cs
  else if pkt.data_len <
      pkt.payload_offset + pkt.counter_count * ER_RX_SL_PACKETISER_PAYLOAD_WORD_SIZE then cs
  else if pkt.payload_offset % 4 ≠ 0 then cs
  else
    (pkt.records.take pkt.counter_count).foldl
      (fun acc r => sfc_mae_counter_increment acc r.counter_index
        pkt.generation_count
        (r.packet_count_lo + r.packet_count_hi * 2 ^ 32)
        (r.byte_count_lo + r.byte_count_hi * 2 ^ 32)) cs

/-! ## Resource registries: two-level lifecycle (sfc_mae.c) -/

/-- FW-allocatable resource context (struct sfc_mae_fw_rsrc): a hardware
resource id together with its hardware-enable refcount. -/
structure SfcMaeFwRsrc where
  refcnt : Nat
  id : Nat
  deriving DecidableEq

/-- Outer rule registry entry (struct sfc_mae_outer_rule): software refcount
plus the hardware resource context.  The match spec and encap type play no
role in the lifecycle functions modelled here. -/
structure SfcMaeOuterRule where
  refcnt : Nat
  fw_rsrc : SfcMaeFwRsrc
  deriving DecidableEq

/-- sfc_mae_outer_rule_add: a fresh entry with software refcount 1 and an
invalid (unallocated) hardware resource. -/
def sfc_mae_outer_rule_add : SfcMaeOuterRule :=
  { refcnt := 1, fw_rsrc := { refcnt := 0, id := EFX_MAE_RSRC_ID_INVALID } }

/-- sfc_mae_outer_rule_enable.  insertRes models efx_mae_outer_rule_insert
(consulted only on the first enable; some id writes the new hardware rule id
into fw_rsrc, none is a failure), and idSetOk models
efx_mae_match_spec_outer_rule_id_set on the dependent action match spec.
On an idSetOk failure after a successful first insert, the source calls
efx_mae_outer_rule_remove (which takes the id by const pointer and frees
the hardware rule) but does not reset fw_rsrc->rule_id.id to the invalid
sentinel.  Returns (rc = 0 as true, post state). -/
def sfc_mae_outer_rule_enable (rule : SfcMaeOuterRule) (insertRes : Option Nat)
    (idSetOk : Bool) : Bool × SfcMaeOuterRule :=
  let fw := rule.fw_rsrc
  if fw.refcnt = 0 then
    match insertRes with
    | none => (false, rule)
    | some newId =>
      let fw1 : SfcMaeFwRsrc := { fw with id := newId }
      if idSetOk then
        (true, { rule with fw_rsrc := { fw1 with refcnt := fw1.refcnt + 1 } })
      else
        (false, { rule with fw_rsrc := fw1 })
  else
    if idSetOk then
      (true, { rule with fw_rsrc := { fw with refcnt := fw.refcnt + 1 } })
    else
      (false, rule)

/-- sfc_mae_outer_rule_disable.  removeOk models efx_mae_outer_rule_remove
on the last disable; on success the id is reset to the invalid sentinel. -/
def sfc_mae_outer_rule_disable (rule : SfcMaeOuterRule) (removeOk : Bool) :
    Bool × SfcMaeOuterRule :=
  let fw := rule.fw_rsrc
  if fw.refcnt = 1 then
    if removeOk then
      (true, { rule with fw_rsrc := { refcnt := 0, id := EFX_MAE_RSRC_ID_INVALID } })
    else
      (false, rule)
  else
    (true, { rule with fw_rsrc := { fw with refcnt := fw.refcnt - 1 } })

/-- Encap. header registry entry (struct sfc_mae_encap_header), lifecycle
part: software refcount plus hardware resource context. -/
structure SfcMaeEncapHeader where
  refcnt : Nat
  fw_rsrc : SfcMaeFwRsrc
  deriving DecidableEq

/-- sfc_mae_encap_header_enable.  A null encap header is a successful no-op.
allocRes models efx_mae_encap_header_alloc, fillOk models
efx_mae_action_set_fill_in_eh_id; as in the outer-rule case, the fill-in
failure path frees the freshly allocated header but leaves fw_rsrc->eh_id.id
set. -/
def sfc_mae_encap_header_enable (eh : Option SfcMaeEncapHeader)
    (allocRes : Option Nat) (fillOk : Bool) : Bool × Option SfcMaeEncapHeader :=
  match eh with
  | none => (true, none)
  | some h =>
    let fw := h.fw_rsrc
    if fw.refcnt = 0 then
      match allocRes with
      | none => (false, some h)
      | some newId =>
        let fw1 : SfcMaeFwRsrc := { fw with id := newId }
        if fillOk then
          (true, some { h with fw_rsrc := { fw1 with refcnt := fw1.refcnt + 1 } })
        else
          (false, some { h with fw_rsrc := fw1 })
    else
      if fillOk then
        (true, some { h with fw_rsrc := { fw with refcnt := fw.refcnt + 1 } })
      else
        (false, some h)

/-- sfc_mae_encap_header_disable.  freeOk models efx_mae_encap_header_free
on the last disable. -/
def sfc_mae_encap_header_disable (eh : Option SfcMaeEncapHeader) (freeOk : Bool) :
    Bool × Option SfcMaeEncapHeader :=
  match eh with
  | none => (true, none)
  | some h =>
    let fw := h.fw_rsrc
    if fw.refcnt = 1 then
      if freeOk then
        (true, some { h with fw_rsrc := { refcnt := 0, id := EFX_MAE_RSRC_ID_INVALID } })
      else
        (false, some h)
    else
      (true, some { h with fw_rsrc := { fw with refcnt := fw.refcnt - 1 } })

/-- Action set registry entry (struct sfc_mae_action_set), lifecycle part:
software refcount, number of counter bindings, the binding's hardware
counter id (invalid until enabled), the referenced encap header entry, and
the hardware resource context. -/
structure SfcMaeActionSet where
  refcnt : Nat
  n_counters : Nat
  counter_mae_id : Nat
  encap_header : Option SfcMaeEncapHeader
  fw_rsrc : SfcMaeFwRsrc
  deriving DecidableEq

/-- sfc_mae_counters_enable: allocate the single counter binding and fill it
into the action set spec.  counterAddRes models sfc_mae_counter_add's
hardware allocation (none = failure), fillOk models
efx_mae_action_set_fill_in_counter_id (whose failure path deletes the
counter again).  Returns (rc = 0 as true, binding hardware id). -/
def sfc_mae_counters_enable (n_counters : Nat) (counterAddRes : Option Nat)
    (fillOk : Bool) : Bool × Nat :=
  if n_counters = 0 then (true, EFX_MAE_RSRC_ID_INVALID)
  else
    match counterAddRes with
    | none => (false, EFX_MAE_RSRC_ID_INVALID)
    | some cid =>
      if fillOk then (true, cid) else (false, EFX_MAE_RSRC_ID_INVALID)

/-- sfc_mae_action_set_enable: on the first enable, cascade through encap
header enable, counters enable, and allocation of the action set's own
hardware object (asetAllocRes models efx_mae_action_set_alloc).  The
counters-enable failure path returns without disabling the encap header;
the alloc failure path disables both counters and encap header
(rollbackFreeOk models the encap header free during that rollback). -/
def sfc_mae_action_set_enable (aset : SfcMaeActionSet)
    (ehAllocRes : Option Nat) (ehFillOk : Bool)
    (counterAddRes : Option Nat) (counterFillOk : Bool)
    (asetAllocRes : Option Nat) (rollbackFreeOk : Bool) :
    Bool × SfcMaeActionSet :=
  let fw := aset.fw_rsrc
  if fw.refcnt = 0 then
    let ehStep := sfc_mae_encap_header_enable aset.encap_header ehAllocRes ehFillOk
    if ehStep.1 = false then
      (false, { aset with encap_header := ehStep.2 })
    else
      let aset1 := { aset with encap_header := ehStep.2 }
      let cntStep := sfc_mae_counters_enable aset1.n_counters counterAddRes counterFillOk
      if cntStep.1 = false then
        (false, aset1)
      else
        let aset2 := { aset1 with counter_mae_id := cntStep.2 }
        match asetAllocRes with
        | none =>
          let ehRb := sfc_mae_encap_header_disable aset2.encap_header rollbackFreeOk
          (false, { aset2 with encap_header := ehRb.2 })
        | some aid =>
          (true, { aset2 with fw_rsrc := { refcnt := fw.refcnt + 1, id := aid } })
  else
    (true, { aset with fw_rsrc := { fw with refcnt := fw.refcnt + 1 } })

/-! ## Action set registry deduplication (sfc_mae_action_set_attach and the
registry tail of sfc_mae_rule_parse_actions) -/

/-- Action set registry entry as seen by deduplication: identity of the
referenced encap header entry (pointer identity, modelled as an id),
number of counter bindings, the opaque action spec (structural equality
modelled as equality of an identifier), and the software refcount. -/
structure SfcMaeActionSetEntry where
  refcnt : Nat
  n_counters : Nat
  spec : Nat
  encap_header : Option Nat
  deriving DecidableEq

/-- sfc_mae_action_set_attach: walk the registry; an entry matches when it
references the same encap header entry, the new action set has no COUNT
actions (n_count = 0), and the action specs are structurally equal.  On a
match the entry's software refcount is incremented; the result is the
updated registry and the index of the matched entry. -/
def sfc_mae_action_set_attach (action_sets : List SfcMaeActionSetEntry)
    (encap_header : Option Nat) (n_count : Nat) (spec : Nat) :
    Option (List SfcMaeActionSetEntry × Nat) :=
  match action_sets with
  | [] => none
  | a :: rest =>
    if a.encap_header = encap_header ∧ n_count = 0 ∧ a.spec = spec then
      some (({ a with refcnt := a.refcnt + 1 }) :: rest, 0)
    else
      match sfc_mae_action_set_attach rest encap_header n_count spec with
      | some (rest1, i) => some (a :: rest1, i + 1)
      | none => none

/-- Registry tail of sfc_mae_rule_parse_actions: attach to an existing
entry, or add a new entry (sfc_mae_action_set_add) with software refcount 1
appended at the registry tail.  Returns the updated registry and the index
of the flow's action set entry. -/
def sfc_mae_rule_parse_actions_registry (action_sets : List SfcMaeActionSetEntry)
    (encap_header : Option Nat) (n_count : Nat) (spec : Nat) :
    List SfcMaeActionSetEntry × Nat :=
  match sfc_mae_action_set_attach action_sets encap_header n_count spec with
  | some r => r
  | none =>
    (action_sets ++ [{ refcnt := 1, n_counters := n_count, spec := spec,
                       encap_header := encap_header }], action_sets.length)

/-! ## Flow insert/remove step order (sfc_mae_flow_insert, sfc_mae_flow_remove) -/

/-- The observable steps of flow insertion and removal. -/
inductive FlowStep where
  | outerRuleEnable
  | actionSetEnable
  | counterStart
  | actionRuleInsert
  | actionRuleRemove
  | actionSetDisable
  | outerRuleDisable
  deriving DecidableEq

/-- The removal counterpart of each insertion step (and vice versa). -/
def stepCounterpart : FlowStep → FlowStep
  | .outerRuleEnable => .outerRuleDisable
  | .actionSetEnable => .actionSetDisable
  | .counterStart => .counterStart
  | .actionRuleInsert => .actionRuleRemove
  | .actionRuleRemove => .actionRuleInsert
  | .actionSetDisable => .actionSetEnable
  | .outerRuleDisable => .outerRuleEnable

/-- sfc_mae_flow_insert: enable the outer rule (if any), enable the action
set, start counter collection if the rule carries counters, then install
the hardware rule; each step's rc is an oracle, and a failure triggers the
reverse rollback of the already completed steps.  Returns the final rc and
the ordered list of steps attempted. -/
def sfc_mae_flow_insert_run (hasOuter : Bool) (nCounters : Nat)
    (outerRc asetRc cntRc insertRc : Nat) : Nat × List FlowStep :=
  if hasOuter ∧ outerRc ≠ 0 then (outerRc, [FlowStep.outerRuleEnable])
  else
    let pre := (if hasOuter then [FlowStep.outerRuleEnable] else []) ++
               [FlowStep.actionSetEnable]
    if asetRc ≠ 0 then
      (asetRc, pre ++ (if hasOuter then [FlowStep.outerRuleDisable] else []))
    else
      let pre2 := pre ++ (if 0 < nCounters then [FlowStep.counterStart] else [])
      if 0 < nCounters ∧ cntRc ≠ 0 then
        (cntRc, pre2 ++ [FlowStep.actionSetDisable] ++
                (if hasOuter then [FlowStep.outerRuleDisable] else []))
      else
        let pre3 := pre2 ++ [FlowStep.actionRuleInsert]
        if insertRc ≠ 0 then
          (insertRc, pre3 ++ [FlowStep.actionSetDisable] ++
                     (if hasOuter then [FlowStep.outerRuleDisable] else []))
        else
          (0, pre3)

/-- sfc_mae_flow_remove: remove the hardware rule (a failure here aborts),
then disable the action set (a failure here is only logged), then disable
the outer rule if present.  Returns the final rc and the ordered list of
steps attempted. -/
def sfc_mae_flow_remove_run (hasOuter : Bool)
    (removeRc asetRc outerRc : Nat) : Nat × List FlowStep :=
  if removeRc ≠ 0 then (removeRc, [FlowStep.actionRuleRemove])
  else
    let steps := [FlowStep.actionRuleRemove, FlowStep.actionSetDisable]
    if hasOuter then
      (outerRc, steps ++ [FlowStep.outerRuleDisable])
    else
      (0, steps)

/-! ## Pattern compiler (sfc_mae_rule_parse_pattern and item callbacks)

Match specifications are opaque device objects; the embedding records the
sequence of efx_mae_match_spec_field_set calls made on each of the two
specs (OUTER and ACTION), which is the only driver-visible content the
claims depend on.  Field-set calls are assumed to succeed (the device
interface either fully succeeds or fully fails; the runs below are the
successful ones). -/

/-- EFX MAE match field identifiers used by the embedded item callbacks,
both the plain and the "ENC" (encapsulated/outer) variants, plus the
outer-rule-id pseudo-field set by efx_mae_match_spec_outer_rule_id_set. -/
inductive MaeField where
  | ETHER_TYPE_BE
  | ETH_SADDR_BE
  | ETH_DADDR_BE
  | VLAN0_TCI_BE
  | VLAN0_PROTO_BE
  | VLAN1_TCI_BE
  | VLAN1_PROTO_BE
  | SRC_IP4_BE
  | DST_IP4_BE
  | IP_PROTO
  | IP_TOS
  | IP_TTL
  | SRC_IP6_BE
  | DST_IP6_BE
  | L4_SPORT_BE
  | L4_DPORT_BE
  | TCP_FLAGS_BE
  | ENC_ETHER_TYPE_BE
  | ENC_ETH_SADDR_BE
  | ENC_ETH_DADDR_BE
  | ENC_VLAN0_TCI_BE
  | ENC_VLAN0_PROTO_BE
  | ENC_VLAN1_TCI_BE
  | ENC_VLAN1_PROTO_BE
  | ENC_SRC_IP4_BE
  | ENC_DST_IP4_BE
  | ENC_IP_PROTO
  | ENC_IP_TOS
  | ENC_IP_TTL
  | ENC_SRC_IP6_BE
  | ENC_DST_IP6_BE
  | ENC_L4_SPORT_BE
  | ENC_L4_DPORT_BE
  | ENC_VNET_ID_BE
  | OUTER_RULE_ID
  deriving DecidableEq

/-- field_ids_remap_to_encap: remap a plain field id to its "ENC" variant
when building a match specification of type OUTER.  Fields without an
entry in the source table are never remapped in any execution; the
identity default here is unobservable. -/
def field_ids_remap_to_encap : MaeField → MaeField
  | .ETHER_TYPE_BE => .ENC_ETHER_TYPE_BE
  | .ETH_SADDR_BE => .ENC_ETH_SADDR_BE
  | .ETH_DADDR_BE => .ENC_ETH_DADDR_BE
  | .VLAN0_TCI_BE => .ENC_VLAN0_TCI_BE
  | .VLAN0_PROTO_BE => .ENC_VLAN0_PROTO_BE
  | .VLAN1_TCI_BE => .ENC_VLAN1_TCI_BE
  | .VLAN1_PROTO_BE => .ENC_VLAN1_PROTO_BE
  | .SRC_IP4_BE => .ENC_SRC_IP4_BE
  | .DST_IP4_BE => .ENC_DST_IP4_BE
  | .IP_PROTO => .ENC_IP_PROTO
  | .IP_TOS => .ENC_IP_TOS
  | .IP_TTL => .ENC_IP_TTL
  | .SRC_IP6_BE => .ENC_SRC_IP6_BE
  | .DST_IP6_BE => .ENC_DST_IP6_BE
  | .L4_SPORT_BE => .ENC_L4_SPORT_BE
  | .L4_DPORT_BE => .ENC_L4_DPORT_BE
  | f => f

/-- One efx_mae_match_spec_field_set call: field id, value bytes, mask bytes. -/
structure FieldWrite where
  field : MaeField
  value : List Nat
  mask : List Nat
  deriving DecidableEq

/-- Which match specification ctx->match_spec currently points to. -/
inductive SpecSel where
  | outer
  | action
  deriving DecidableEq

/-- Tunnel protocols relevant to the embedded runs (EFX_TUNNEL_PROTOCOL_*). -/
inductive TunnelProtocol where
  | protoNone
  | vxlan
  deriving DecidableEq

/-- Auxiliary L2 EtherType tracking entry (struct sfc_mae_ethertype). -/
structure SfcMaeEthertype where
  value : Nat
  mask : Nat
  deriving DecidableEq

/-- Pattern-scratch state (struct sfc_mae_pattern_data): the EtherType
chain (3 entries), VLAN tag count, the L3 restriction on the innermost
EtherType and the L4 restriction on the L3 next-protocol byte, plus the
staged L3 next-protocol value/mask. -/
structure SfcMaePatternData where
  ethertypes : List SfcMaeEthertype
  nb_vlan_tags : Nat
  innermost_ethertype_restriction : SfcMaeEthertype
  l3_next_proto_value : Nat
  l3_next_proto_mask : Nat
  l3_next_proto_restriction_value : Nat
  l3_next_proto_restriction_mask : Nat
  deriving DecidableEq

/-- The zeroed pattern-scratch state. -/
def patternDataZero : SfcMaePatternData :=
  { ethertypes := [⟨0, 0⟩, ⟨0, 0⟩, ⟨0, 0⟩], nb_vlan_tags := 0,
    innermost_ethertype_restriction := ⟨0, 0⟩,
    l3_next_proto_value := 0, l3_next_proto_mask := 0,
    l3_next_proto_restriction_value := 0, l3_next_proto_restriction_mask := 0 }

/-- Parse context (struct sfc_mae_parse_ctx): the accumulated field writes
of the two match specs, the active spec pointer, the active field remap
table, the pattern-scratch state and the detected encap type. -/
structure SfcMaeParseCtx where
  outerWrites : List FieldWrite
  actionWrites : List FieldWrite
  match_spec : SpecSel
  remapEncap : Bool
  pattern_data : SfcMaePatternData
  encap_type : TunnelProtocol
  deriving DecidableEq

/-- The initial parse context of sfc_mae_rule_parse_pattern: no writes yet,
active spec is ACTION, no field remapping, no encapsulation assumed. -/
def ctxInit : SfcMaeParseCtx :=
  { outerWrites := [], actionWrites := [], match_spec := SpecSel.action,
    remapEncap := false, pattern_data := patternDataZero,
    encap_type := TunnelProtocol.protoNone }

/-- The ctx->field_ids_remap table lookup. -/
def ctxFremap (ctx : SfcMaeParseCtx) (f : MaeField) : MaeField :=
  if ctx.remapEncap then field_ids_remap_to_encap f else f

/-- efx_mae_match_spec_field_set on ctx->match_spec: record the write on
whichever spec the context points to. -/
def matchSpecFieldSet (ctx : SfcMaeParseCtx) (f : MaeField) (v m : List Nat) :
    SfcMaeParseCtx :=
  match ctx.match_spec with
  | .outer => { ctx with outerWrites := ctx.outerWrites ++ [⟨f, v, m⟩] }
  | .action => { ctx with actionWrites := ctx.actionWrites ++ [⟨f, v, m⟩] }

/-- Big-endian byte pair of a 16-bit value. -/
def be16Bytes (v : Nat) : List Nat := [v / 256 % 256, v % 256]

/-- ethertypes array access with the zero entry as default. -/
def etGetD (ets : List SfcMaeEthertype) (i : Nat) : SfcMaeEthertype :=
  ets.getD i ⟨0, 0⟩

/-- sfc_mae_set_ethertypes: write the innermost EtherType into
ETHER_TYPE_BE (remapped as appropriate) and each VLAN tag's TPID into
VLAN0_PROTO_BE/VLAN1_PROTO_BE. -/
def sfc_mae_set_ethertypes (ctx : SfcMaeParseCtx) : SfcMaeParseCtx :=
  let pd := ctx.pattern_data
  let et := etGetD pd.ethertypes pd.nb_vlan_tags
  let ctx1 := matchSpecFieldSet ctx (ctxFremap ctx MaeField.ETHER_TYPE_BE)
    (be16Bytes et.value) (be16Bytes et.mask)
  let vlanProtoIds : List MaeField := [MaeField.VLAN0_PROTO_BE, MaeField.VLAN1_PROTO_BE]
  (List.range pd.nb_vlan_tags).foldl (fun c i =>
    let eti := etGetD pd.ethertypes i
    matchSpecFieldSet c (ctxFremap c (vlanProtoIds.getD i MaeField.VLAN0_PROTO_BE))
      (be16Bytes eti.value) (be16Bytes eti.mask)) ctx1

/-- The ordered candidate TPID list of
sfc_mae_rule_process_pattern_data (supported_tpids). -/
def supported_tpids : List Nat := [0x8100, 0x88a8, 0x9100, 0x9200, 0x9300]

/-- The inner TPID search loop: look for value among
supported_tpids[startIdx .. nbSup). -/
def tpidSearch (value startIdx nbSup : Nat) : Bool :=
  ((List.range nbSup).drop startIdx).any (fun t => supported_tpids.getD t 0 == value)

/-- IPPROTO_TCP. -/
def IPPROTO_TCP : Nat := 6

/-- IPPROTO_UDP. -/
def IPPROTO_UDP : Nat := 17

/-- The L3 next-protocol resolution step of
sfc_mae_rule_process_pattern_data: when a following L4 item restricts the
byte (restriction mask 0xff), a wildcarded declaration takes the implied
value with full mask, an exact equal declaration is kept, and everything
else is a pattern-consistency error (none).  Without an L4 restriction the
staged value/mask pass through. -/
def l3NextProtoResolve (value mask rvalue rmask : Nat) : Option (Nat × Nat) :=
  if rmask = 0xff then
    if mask = 0 then some (rvalue, 0xff)
    else if mask ≠ 0xff ∨ value ≠ rvalue then none
    else some (value, mask)
  else some (value, mask)

/-- sfc_mae_rule_process_pattern_data: enforce the TPID chain constraints,
resolve the innermost EtherType against the L3 restriction, emit the
EtherType chain fields, resolve the L3 next-protocol byte against the L4
restriction and emit IP_PROTO.  none models the EINVAL pattern error. -/
def sfc_mae_rule_process_pattern_data (ctx : SfcMaeParseCtx) :
    Option SfcMaeParseCtx :=
  let pd := ctx.pattern_data
  let nbSup0 : Nat :=
    if pd.innermost_ethertype_restriction.mask ≠ 0 ∧ pd.nb_vlan_tags < 2 then 1
    else supported_tpids.length
  let tpidsOk := ((List.range pd.nb_vlan_tags).foldl (fun (st : Bool × Nat) i =>
      let et := etGetD pd.ethertypes i
      (st.1 && (et.mask == 0xffff) &&
        tpidSearch et.value (pd.nb_vlan_tags - i - 1) st.2, 1))
    (true, nbSup0)).1
  if tpidsOk = false then none
  else
    let r := pd.innermost_ethertype_restriction
    let etIn := etGetD pd.ethertypes pd.nb_vlan_tags
    let resolved : Option SfcMaeEthertype :=
      if r.mask = 0xffff then
        if etIn.mask = 0 then some ⟨r.value, 0xffff⟩
        else if etIn.mask ≠ 0xffff ∨ etIn.value ≠ r.value then none
        else some etIn
      else some etIn
    match resolved with
    | none => none
    | some etNew =>
      let pd1 := { pd with ethertypes := pd.ethertypes.set pd.nb_vlan_tags etNew }
      let ctx1 := { ctx with pattern_data := pd1 }
      let ctx2 := sfc_mae_set_ethertypes ctx1
      match l3NextProtoResolve pd1.l3_next_proto_value pd1.l3_next_proto_mask
          pd1.l3_next_proto_restriction_value pd1.l3_next_proto_restriction_mask with
      | none => none
      | some pv =>
        let pd2 := { pd1 with l3_next_proto_value := pv.1, l3_next_proto_mask := pv.2 }
        let ctx3 := { ctx2 with pattern_data := pd2 }
        some (matchSpecFieldSet ctx3 (ctxFremap ctx3 MaeField.IP_PROTO) [pv.1] [pv.2])

/-- Item ETH data (struct rte_flow_item_eth): destination and source MAC
(6 bytes each) and the 16-bit EtherType. -/
structure EthItemData where
  dst : List Nat
  src : List Nat
  typ : Nat
  deriving DecidableEq

/-- Item VLAN data (struct rte_flow_item_vlan): 16-bit TCI and inner
EtherType. -/
structure VlanItemData where
  tci : Nat
  inner_typ : Nat
  deriving DecidableEq

/-- Item IPV6 data (struct rte_flow_item_ipv6, the fields the driver
supports): addresses (16 bytes each), next-protocol byte, hop limit and
the 32-bit version/traffic-class/flow-label word. -/
structure Ipv6ItemData where
  src_addr : List Nat
  dst_addr : List Nat
  proto : Nat
  hop_limits : Nat
  vtc_flow : Nat
  deriving DecidableEq

/-- Item UDP data: 16-bit ports. -/
structure UdpItemData where
  src_port : Nat
  dst_port : Nat
  deriving DecidableEq

/-- Item TCP data: 16-bit ports and the combined 16-bit
data-offset-plus-flags word. -/
structure TcpItemData where
  src_port : Nat
  dst_port : Nat
  data_off_flags : Nat
  deriving DecidableEq

/-- Item VXLAN data: the 24-bit VNI as 3 bytes. -/
structure VxlanItemData where
  vni : List Nat
  deriving DecidableEq

/-- A pattern item with resolved spec/mask (sfc_flow_parse_init has already
substituted the item-type default mask when the caller gave none; a none
spec means the item matches anything of its type). -/
inductive PatternItem where
  | eth (spec : Option EthItemData) (mask : EthItemData)
  | vlan (spec : Option VlanItemData) (mask : VlanItemData)
  | ipv6 (spec : Option Ipv6ItemData) (mask : Ipv6ItemData)
  | udp (spec : Option UdpItemData) (mask : UdpItemData)
  | tcp (spec : Option TcpItemData) (mask : TcpItemData)
  | vxlan (spec : Option VxlanItemData) (mask : VxlanItemData)
  deriving DecidableEq

/-- sfc_mae_rule_parse_item_eth: stage the EtherType into ethertypes[0]
and set the MAC address fields (the type locator is deferred). -/
def sfc_mae_rule_parse_item_eth (spec : Option EthItemData) (mask : EthItemData)
    (ctx : SfcMaeParseCtx) : Option SfcMaeParseCtx :=
  match spec with
  | none => some ctx
  | some s =>
    let pd := ctx.pattern_data
    let pd1 := { pd with ethertypes := pd.ethertypes.set 0 ⟨s.typ, mask.typ⟩ }
    let ctx1 := { ctx with pattern_data := pd1 }
    let ctx2 := matchSpecFieldSet ctx1 (ctxFremap ctx1 MaeField.ETH_DADDR_BE) s.dst mask.dst
    some (matchSpecFieldSet ctx2 (ctxFremap ctx2 MaeField.ETH_SADDR_BE) s.src mask.src)

/-- sfc_mae_rule_parse_item_vlan: reject a third tag, pick the per-tag
field locators, bump nb_vlan_tags, stage the inner EtherType into
ethertypes[nb_vlan_tags] and set the TCI field. -/
def sfc_mae_rule_parse_item_vlan (spec : Option VlanItemData) (mask : VlanItemData)
    (ctx : SfcMaeParseCtx) : Option SfcMaeParseCtx :=
  let pd := ctx.pattern_data
  if pd.nb_vlan_tags = 2 then none
  else
    let tciField : MaeField :=
      if pd.nb_vlan_tags = 0 then MaeField.VLAN0_TCI_BE else MaeField.VLAN1_TCI_BE
    let pd1 := { pd with nb_vlan_tags := pd.nb_vlan_tags + 1 }
    let ctx1 := { ctx with pattern_data := pd1 }
    match spec with
    | none => some ctx1
    | some s =>
      let ets2 := pd1.ethertypes.set pd1.nb_vlan_tags ⟨s.inner_typ, mask.inner_typ⟩
      let pd2 := { pd1 with ethertypes := ets2 }
      let ctx2 := { ctx1 with pattern_data := pd2 }
      some (matchSpecFieldSet ctx2 (ctxFremap ctx2 tciField)
        (be16Bytes s.tci) (be16Bytes mask.tci))

/-- RTE_ETHER_TYPE_IPV6. -/
def RTE_ETHER_TYPE_IPV6 : Nat := 0x86dd

/-- RTE_IPV6_HDR_TC_MASK. -/
def RTE_IPV6_HDR_TC_MASK : Nat := 0x0ff00000

/-- RTE_IPV6_HDR_TC_SHIFT. -/
def RTE_IPV6_HDR_TC_SHIFT : Nat := 20

/-- sfc_mae_rule_parse_item_ipv6: record the IPv6 innermost-EtherType
restriction, stage the next-protocol byte, set addresses and hop limit,
and set IP_TOS from the traffic-class bits of vtc_flow. -/
def sfc_mae_rule_parse_item_ipv6 (spec : Option Ipv6ItemData) (mask : Ipv6ItemData)
    (ctx : SfcMaeParseCtx) : Option SfcMaeParseCtx :=
  let pd := ctx.pattern_data
  let pd1 := { pd with innermost_ethertype_restriction :=
    ⟨RTE_ETHER_TYPE_IPV6, 0xffff⟩ }
  let ctx1 := { ctx with pattern_data := pd1 }
  match spec with
  | none => some ctx1
  | some s =>
    let pd2 := { pd1 with l3_next_proto_value := s.proto,
                          l3_next_proto_mask := mask.proto }
    let ctx2 := { ctx1 with pattern_data := pd2 }
    let ctx3 := matchSpecFieldSet ctx2 (ctxFremap ctx2 MaeField.SRC_IP6_BE)
      s.src_addr mask.src_addr
    let ctx4 := matchSpecFieldSet ctx3 (ctxFremap ctx3 MaeField.DST_IP6_BE)
      s.dst_addr mask.dst_addr
    let ctx5 := matchSpecFieldSet ctx4 (ctxFremap ctx4 MaeField.IP_TTL)
      [s.hop_limits] [mask.hop_limits]
    let tc_value := (s.vtc_flow &&& RTE_IPV6_HDR_TC_MASK) >>> RTE_IPV6_HDR_TC_SHIFT
    let tc_mask := (mask.vtc_flow &&& RTE_IPV6_HDR_TC_MASK) >>> RTE_IPV6_HDR_TC_SHIFT
    some (matchSpecFieldSet ctx5 (ctxFremap ctx5 MaeField.IP_TOS) [tc_value] [tc_mask])

/-- sfc_mae_rule_parse_item_udp: record the UDP restriction on the L3
next-protocol byte and set the port fields. -/
def sfc_mae_rule_parse_item_udp (spec : Option UdpItemData) (mask : UdpItemData)
    (ctx : SfcMaeParseCtx) : Option SfcMaeParseCtx :=
  let pd := ctx.pattern_data
  let pd1 := { pd with l3_next_proto_restriction_value := IPPROTO_UDP,
                       l3_next_proto_restriction_mask := 0xff }
  let ctx1 := { ctx with pattern_data := pd1 }
  match spec with
  | none => some ctx1
  | some s =>
    let ctx2 := matchSpecFieldSet ctx1 (ctxFremap ctx1 MaeField.L4_SPORT_BE)
      (be16Bytes s.src_port) (be16Bytes mask.src_port)
    some (matchSpecFieldSet ctx2 (ctxFremap ctx2 MaeField.L4_DPORT_BE)
      (be16Bytes s.dst_port) (be16Bytes mask.dst_port))

/-- sfc_mae_rule_parse_item_tcp: reject TCP while the OUTER spec is being
built, record the TCP restriction on the L3 next-protocol byte, and set
the port and flags fields. -/
def sfc_mae_rule_parse_item_tcp (spec : Option TcpItemData) (mask : TcpItemData)
    (ctx : SfcMaeParseCtx) : Option SfcMaeParseCtx :=
  if ctx.match_spec ≠ SpecSel.action then none
  else
    let pd := ctx.pattern_data
    let pd1 := { pd with l3_next_proto_restriction_value := IPPROTO_TCP,
                         l3_next_proto_restriction_mask := 0xff }
    let ctx1 := { ctx with pattern_data := pd1 }
    match spec with
    | none => some ctx1
    | some s =>
      let ctx2 := matchSpecFieldSet ctx1 (ctxFremap ctx1 MaeField.L4_SPORT_BE)
        (be16Bytes s.src_port) (be16Bytes mask.src_port)
      let ctx3 := matchSpecFieldSet ctx2 (ctxFremap ctx2 MaeField.L4_DPORT_BE)
        (be16Bytes s.dst_port) (be16Bytes mask.dst_port)
      some (matchSpecFieldSet ctx3 (ctxFremap ctx3 MaeField.TCP_FLAGS_BE)
        (be16Bytes s.data_off_flags) (be16Bytes mask.data_off_flags))

/-- sfc_mae_rule_parse_item_tunnel: process the deferred pattern data while
the OUTER spec is still active, reset the pattern-scratch state, switch the
active spec pointer to ACTION and the remap table to plain, then write the
24-bit VNI padded at offset 1 of the 32-bit ENC_VNET_ID_BE field. -/
def sfc_mae_rule_parse_item_tunnel (spec : Option VxlanItemData) (mask : VxlanItemData)
    (ctx : SfcMaeParseCtx) : Option SfcMaeParseCtx :=
  match sfc_mae_rule_process_pattern_data ctx with
  | none => none
  | some ctx1 =>
    let ctx2 := { ctx1 with pattern_data := patternDataZero }
    let ctx3 := { ctx2 with match_spec := SpecSel.action, remapEncap := false }
    match spec with
    | none => some ctx3
    | some s =>
      let vnet_id_v := 0 :: s.vni
      let vnet_id_m := 0 :: mask.vni
      some (matchSpecFieldSet ctx3 MaeField.ENC_VNET_ID_BE vnet_id_v vnet_id_m)

/-- Modelled from the spec: sfc_flow_parse_pattern (sfc_flow.c, part of
this repository but not under src/) walks the item list in order,
checking layer ordering, and dispatches each item to its registered MAE
parse callback. -/
def sfc_flow_parse_pattern (items : List PatternItem) (ctx : SfcMaeParseCtx) :
    Option SfcMaeParseCtx :=
  match items with
  | [] => some ctx
  | it :: rest =>
    let step :=
      match it with
      | .eth s m => sfc_mae_rule_parse_item_eth s m ctx
      | .vlan s m => sfc_mae_rule_parse_item_vlan s m ctx
      | .ipv6 s m => sfc_mae_rule_parse_item_ipv6 s m ctx
      | .udp s m => sfc_mae_rule_parse_item_udp s m ctx
      | .tcp s m => sfc_mae_rule_parse_item_tcp s m ctx
      | .vxlan s m => sfc_mae_rule_parse_item_tunnel s m ctx
    match step with
    | none => none
    | some c => sfc_flow_parse_pattern rest c

/-- Device/adapter limits consulted by the tunnel lookahead
(struct sfc_mae fields). -/
structure SfcMaeCfg where
  vxlanSupported : Bool
  nb_outer_rule_prios_max : Nat

/-- Does the pattern contain a tunnel item (VXLAN in this embedding)? -/
def patternHasTunnel : List PatternItem → Bool
  | [] => false
  | .vxlan _ _ :: _ => true
  | _ :: rest => patternHasTunnel rest

/-- sfc_mae_rule_encap_parse_init: scan forward for the first tunnel item;
when one is found, validate device support for the encap type and the
outer-rule priority range, open the OUTER match spec, point ctx->match_spec
at it and select the "ENC" field remap table. -/
def sfc_mae_rule_encap_parse_init (cfg : SfcMaeCfg) (items : List PatternItem)
    (priority : Nat) (ctx : SfcMaeParseCtx) : Option SfcMaeParseCtx :=
  if patternHasTunnel items then
    if cfg.vxlanSupported = false then none
    else if cfg.nb_outer_rule_prios_max ≤ priority then none
    else
      some { ctx with encap_type := TunnelProtocol.vxlan,
                      match_spec := SpecSel.outer, remapEncap := true }
  else some ctx

/-- The compiled result of pattern parsing: the field writes of the two
match specs and the detected encap type. -/
structure ParsedSpecs where
  outerWrites : List FieldWrite
  actionWrites : List FieldWrite
  encap_type : TunnelProtocol
  deriving DecidableEq

/-- sfc_mae_rule_parse_pattern: tunnel lookahead, per-item parsing, final
deferred-data processing, and (in sfc_mae_rule_process_outer, when an
OUTER spec exists and no registry entry is reused) setting the
not-yet-allocated outer rule id (the invalid sentinel, full mask) in the
ACTION spec. -/
def sfc_mae_rule_parse_pattern (cfg : SfcMaeCfg) (items : List PatternItem)
    (priority : Nat) : Option ParsedSpecs :=
  match sfc_mae_rule_encap_parse_init cfg items priority ctxInit with
  | none => none
  | some ctx0 =>
    match sfc_flow_parse_pattern items ctx0 with
    | none => none
    | some ctx1 =>
      match sfc_mae_rule_process_pattern_data ctx1 with
      | none => none
      | some ctx2 =>
        let ctx3 :=
          if ctx2.encap_type ≠ TunnelProtocol.protoNone then
            { ctx2 with actionWrites := ctx2.actionWrites ++
              [⟨MaeField.OUTER_RULE_ID, [0xff, 0xff, 0xff, 0xff],
                [0xff, 0xff, 0xff, 0xff]⟩] }
          else ctx2
        some { outerWrites := ctx3.outerWrites, actionWrites := ctx3.actionWrites,
               encap_type := ctx3.encap_type }

/-! ## Encap header word-wise mask pass (sfc_mae_header_force_item_masks) -/

/-- One 16-bit word of the mask pass: clear the header word under the mask,
then OR in the masked spec word (*wp &= ~mask; *wp |= spec & mask). -/
def forceWord (w m s : Nat) : Nat := (w &&& (0xffff ^^^ m)) ||| (s &&& m)

/-- The per-item word loop: apply forceWord pointwise over the item's
header region, spec words and mask words. -/
def forceItemWords : List Nat → List Nat → List Nat → List Nat
  | w :: ws, s :: ss, m :: ms => forceWord w m s :: forceItemWords ws ss ms
  | ws, _, _ => ws

/-- A parsed template item as recorded by
sfc_mae_rule_parse_action_vxlan_encap: the caller's spec and mask bytes of
the item's protocol header, as 16-bit words. -/
structure ParsedItem where
  specWords : List Nat
  maskWords : List Nat
  deriving DecidableEq

/-- sfc_mae_header_force_item_masks: walk the parsed items, applying the
word-wise mask pass to each item's region of the assembled header buffer
and advancing the buffer pointer by the item's header size. -/
def sfc_mae_header_force_item_masks (buf : List Nat) :
    List ParsedItem → List Nat
  | [] => buf
  | it :: rest =>
    let n := it.specWords.length
    forceItemWords (buf.take n) it.specWords it.maskWords ++
      sfc_mae_header_force_item_masks (buf.drop n) rest

/-- Total number of 16-bit words covered by the parsed items. -/
def totalWords (items : List ParsedItem) : Nat :=
  (items.map (fun it => it.specWords.length)).sum

/-- The concatenation of all items' spec words. -/
def itemsSpecFlat (items : List ParsedItem) : List Nat :=
  (items.map (fun it => it.specWords)).flatten

/-- The concatenation of all items' mask words. -/
def itemsMaskFlat (items : List ParsedItem) : List Nat :=
  (items.map (fun it => it.maskWords)).flatten

/-! ## Helper lemmas -/

/-- getD of a list at the position just set, when in bounds. -/
theorem getD_set_self {α : Type} (l : List α) (i : Nat) (a d : α)
    (h : i < l.length) : (l.set i a).getD i d = a := by
  simp [List.getD, List.getElem?_set_eq_of_lt, h]

/-! ## Claim theorems -/

/-- C1: for every registry entry, the hardware resource id equals the
invalid sentinel iff the hardware-enable refcount is zero, at every
observable point, including after mid-way device-call failures.  The code
violates this: on a freshly added outer rule, an enable whose
efx_mae_outer_rule_insert succeeds (returning id 5) and whose subsequent
efx_mae_match_spec_outer_rule_id_set fails leaves the entry with
hardware refcount 0 but a non-sentinel hardware id (the id is never reset
on that path), contradicting the code's own SFC_ASSERTs in
sfc_mae_outer_rule_enable and sfc_mae_outer_rule_del. -/
theorem c1_outer_rule_invariant_violation :
    (sfc_mae_outer_rule_enable sfc_mae_outer_rule_add (some 5) false).1 = false ∧
    (sfc_mae_outer_rule_enable sfc_mae_outer_rule_add (some 5) false).2.fw_rsrc.refcnt = 0 ∧
    (sfc_mae_outer_rule_enable sfc_mae_outer_rule_add (some 5) false).2.fw_rsrc.id ≠
      EFX_MAE_RSRC_ID_INVALID := by
  decide

/-- A never-enabled encap header entry with software refcount 1. -/
def c2EncapHeaderFresh : SfcMaeEncapHeader :=
  { refcnt := 1, fw_rsrc := { refcnt := 0, id := EFX_MAE_RSRC_ID_INVALID } }

/-- A never-enabled action set entry with one counter binding and an encap
header reference. -/
def c2ActionSetFresh : SfcMaeActionSet :=
  { refcnt := 1, n_counters := 1, counter_mae_id := EFX_MAE_RSRC_ID_INVALID,
    encap_header := some c2EncapHeaderFresh,
    fw_rsrc := { refcnt := 0, id := EFX_MAE_RSRC_ID_INVALID } }

/-- C2: action-set enable on an entry with hardware refcount zero must roll
back all cascade steps already taken when a later step fails.  The code
violates this on the counter-allocation failure path: for an action set
with an encap header and one counter binding, when the encap header enable
succeeds (allocating id 7) and the counter allocation then fails, the call
returns failure with the action set's own refcount unincremented (as
claimed) but with the encap header still hardware-enabled (refcount 1,
id 7) — the encap header enabled by that call is not disabled again. -/
theorem c2_action_set_enable_missing_rollback :
    (sfc_mae_action_set_enable c2ActionSetFresh
      (some 7) true none true (some 9) true).1 = false ∧
    (sfc_mae_action_set_enable c2ActionSetFresh
      (some 7) true none true (some 9) true).2.fw_rsrc.refcnt = 0 ∧
    (sfc_mae_action_set_enable c2ActionSetFresh
      (some 7) true none true (some 9) true).2.encap_header =
      some { refcnt := 1, fw_rsrc := { refcnt := 1, id := 7 } } := by
  decide

/-- C4: on a slot allocated with generation G and marked in-use, an
apply_update carrying a generation strictly below G is a no-op counted in
the realloc_update diagnostic, leaving the slot array unchanged; an
apply_update on a slot that is not in-use likewise leaves the slot array
unchanged and is counted in the not_inuse_update diagnostic. -/
theorem c4_counter_update_generation_guard
    (cs : SfcMaeCounters) (id gen pkts bytes : Nat) (p : SfcMaeCounter)
    (hp : cs.mae_counters.get? id = some p) :
    (p.inuse = true → gen < p.generation_count →
      (sfc_mae_counter_increment cs id gen pkts bytes).mae_counters = cs.mae_counters ∧
      (sfc_mae_counter_increment cs id gen pkts bytes).realloc_update =
        cs.realloc_update + 1) ∧
    (p.inuse = false →
      (sfc_mae_counter_increment cs id gen pkts bytes).mae_counters = cs.mae_counters ∧
      (sfc_mae_counter_increment cs id gen pkts bytes).not_inuse_update =
        cs.not_inuse_update + 1) := by
  unfold sfc_mae_counter_increment
  rw [hp]
  constructor
  · intro hin hgen
    simp [hin, hgen]
  · intro hin
    simp [hin]

/-- Witness for C4 on a concrete one-slot collection: the slot is in-use
with generation 7; an update with generation 3 leaves the array unchanged
and bumps the diagnostic. -/
theorem c4_counter_update_generation_guard_witness :
    (sfc_mae_counter_increment
      { mae_counters := [{ inuse := true, generation_count := 7, value_pkts := 100,
                           value_bytes := 2000, reset_pkts := 0, reset_bytes := 0 }],
        n_mae_counters := 1, not_inuse_update := 0, realloc_update := 0 }
      0 3 5 9).mae_counters =
      ({ mae_counters := [{ inuse := true, generation_count := 7, value_pkts := 100,
                            value_bytes := 2000, reset_pkts := 0, reset_bytes := 0 }],
         n_mae_counters := 1, not_inuse_update := 0,
         realloc_update := 0 } : SfcMaeCounters).mae_counters ∧
    (sfc_mae_counter_increment
      { mae_counters := [{ inuse := true, generation_count := 7, value_pkts := 100,
                           value_bytes := 2000, reset_pkts := 0, reset_bytes := 0 }],
        n_mae_counters := 1, not_inuse_update := 0, realloc_update := 0 }
      0 3 5 9).realloc_update =
      ({ mae_counters := [{ inuse := true, generation_count := 7, value_pkts := 100,
                            value_bytes := 2000, reset_pkts := 0, reset_bytes := 0 }],
         n_mae_counters := 1, not_inuse_update := 0,
         realloc_update := 0 } : SfcMaeCounters).realloc_update + 1 :=
  (c4_counter_update_generation_guard _ 0 3 5 9
    { inuse := true, generation_count := 7, value_pkts := 100,
      value_bytes := 2000, reset_pkts := 0, reset_bytes := 0 }
    (by decide)).1 rfl (by decide)

/-- C10: counter allocation rejects a hardware-returned id at or above the
pre-allocated slot-array size with EFAULT (rc 14), freeing the hardware
counter and leaving the collection untouched (no slot marked in-use); a
successful allocation assigns an id strictly below the array size, so the
marked slot index is in bounds and that slot is in-use afterwards. -/
theorem c10_counter_add_id_range_guard
    (cs : SfcMaeCounters) (id gen : Nat)
    (hlen : cs.mae_counters.length = cs.n_mae_counters) :
    (cs.n_mae_counters ≤ id →
      sfc_mae_counter_add cs (some (id, gen)) = (14, cs, none)) ∧
    (id < cs.n_mae_counters →
      (sfc_mae_counter_add cs (some (id, gen))).1 = 0 ∧
      (sfc_mae_counter_add cs (some (id, gen))).2.2 = some id ∧
      id < (sfc_mae_counter_add cs (some (id, gen))).2.1.mae_counters.length ∧
      ((sfc_mae_counter_add cs (some (id, gen))).2.1.mae_counters.getD id
        counterZero).inuse = true) := by
  constructor
  · intro hge
    unfold sfc_mae_counter_add
    simp [hge]
  · intro hlt
    have hni : ¬ cs.n_mae_counters ≤ id := Nat.not_le.mpr hlt
    have hlt2 : id < cs.mae_counters.length := by omega
    unfold sfc_mae_counter_add
    simp only [if_neg hni]
    simp [hlt2, getD_set_self]

/-- Witness for C10 on a two-slot collection: id 5 is rejected with EFAULT
and no state change; id 1 is accepted, in bounds, and marks slot 1 in-use. -/
theorem c10_counter_add_id_range_guard_witness :
    (sfc_mae_counter_add (sfc_mae_counters_init 2) (some (5, 3)) =
      (14, sfc_mae_counters_init 2, none)) ∧
    ((sfc_mae_counter_add (sfc_mae_counters_init 2) (some (1, 3))).1 = 0 ∧
     (sfc_mae_counter_add (sfc_mae_counters_init 2) (some (1, 3))).2.2 = some 1 ∧
     1 < (sfc_mae_counter_add (sfc_mae_counters_init 2) (some (1, 3))).2.1.mae_counters.length ∧
     ((sfc_mae_counter_add (sfc_mae_counters_init 2) (some (1, 3))).2.1.mae_counters.getD 1
       counterZero).inuse = true) :=
  ⟨(c10_counter_add_id_range_guard (sfc_mae_counters_init 2) 5 3 (by decide)).1 (by decide),
   (c10_counter_add_id_range_guard (sfc_mae_counters_init 2) 1 3 (by decide)).2 (by decide)⟩

/-- C6: an action set carrying a COUNT action (n_count not zero) is never
attached to any existing registry entry — even one with the same encap
header reference and structurally equal spec — and the registry tail of
sfc_mae_rule_parse_actions instead appends a new entry with software
refcount 1. -/
theorem c6_count_action_set_never_attached
    (action_sets : List SfcMaeActionSetEntry) (encap_header : Option Nat)
    (n_count spec : Nat) (h : n_count ≠ 0) :
    sfc_mae_action_set_attach action_sets encap_header n_count spec = none ∧
    sfc_mae_rule_parse_actions_registry action_sets encap_header n_count spec =
      (action_sets ++ [{ refcnt := 1, n_counters := n_count, spec := spec,
                         encap_header := encap_header }], action_sets.length) := by
  have hnone : ∀ l : List SfcMaeActionSetEntry,
      sfc_mae_action_set_attach l encap_header n_count spec = none := by
    intro l
    induction l with
    | nil => rfl
    | cons a t ih =>
      unfold sfc_mae_action_set_attach
      rw [if_neg (fun hc => h hc.2.1), ih]
  refine ⟨hnone action_sets, ?_⟩
  unfold sfc_mae_rule_parse_actions_registry
  rw [hnone action_sets]

/-- Witness for C6: a registry already holding an otherwise identical
entry (same encap header id 1, same spec id 42, refcount 2) is not
attached to by a COUNT-bearing action set; a fresh entry is appended. -/
theorem c6_count_action_set_never_attached_witness :
    sfc_mae_action_set_attach [⟨2, 0, 42, some 1⟩] (some 1) 1 42 = none ∧
    sfc_mae_rule_parse_actions_registry [⟨2, 0, 42, some 1⟩] (some 1) 1 42 =
      ([⟨2, 0, 42, some 1⟩] ++ [{ refcnt := 1, n_counters := 1, spec := 42,
                                  encap_header := some 1 }],
       ([⟨2, 0, 42, some 1⟩] : List SfcMaeActionSetEntry).length) :=
  c6_count_action_set_never_attached [⟨2, 0, 42, some 1⟩] (some 1) 1 42 (by decide)

/-- C8: a telemetry packet that is multi-segment, shorter than the fixed
header, of unexpected version or source identifier, of unexpected header
offset, truncated, or with a payload offset that is not 32-bit aligned is
discarded whole: decoding returns the counter collection unchanged, so no
slot's accumulated value changes on account of that packet. -/
theorem c8_counter_packet_malformed_rejected
    (pkt : CounterPacket) (cs : SfcMaeCounters)
    (h : pkt.nb_segs ≠ 1 ∨
         pkt.data_len < ER_RX_SL_PACKETISER_HEADER_WORD_SIZE ∨
         pkt.version ≠ ERF_SC_PACKETISER_HEADER_VERSION_VALUE ∨
         pkt.identifier ≠ ERF_SC_PACKETISER_HEADER_IDENTIFIER_AR ∨
         pkt.header_offset ≠ ERF_SC_PACKETISER_HEADER_HEADER_OFFSET_DEFAULT ∨
         pkt.data_len < pkt.payload_offset +
           pkt.counter_count * ER_RX_SL_PACKETISER_PAYLOAD_WORD_SIZE ∨
         pkt.payload_offset % 4 ≠ 0) :
    sfc_mae_parse_counter_packet pkt cs = cs := by
  unfold sfc_mae_parse_counter_packet
  split_ifs with h1 h2 h3 h4 h5 h6 h7
  any_goals rfl
  rcases h with a | a | a | a | a | a | a <;> contradiction

/-- A multi-segment telemetry packet, otherwise well-formed. -/
def c8PacketScattered : CounterPacket :=
  { nb_segs := 2, data_len := 100, generation_count := 1, version := 2,
    identifier := 0, header_offset := 4, payload_offset := 16,
    counter_count := 1, records := [⟨0, 1, 0, 50, 0⟩] }

/-- Witness for C8: the multi-segment packet leaves a concrete two-slot
collection unchanged. -/
theorem c8_counter_packet_malformed_rejected_witness :
    sfc_mae_parse_counter_packet c8PacketScattered (sfc_mae_counters_init 2) =
      sfc_mae_counters_init 2 :=
  c8_counter_packet_malformed_rejected c8PacketScattered (sfc_mae_counters_init 2)
    (Or.inl (by decide))

/-- C9: flow removal runs the steps in the exact reverse order of a
successful insertion — hardware rule remove, then action-set disable, then
outer-rule disable — and an action-set disable failure (asetRc not zero)
does not abort removal: it is logged, the outer-rule disable step is still
attempted, and the outer-rule disable's rc is what the removal returns. -/
theorem c9_flow_remove_reverse_order_tolerant (asetRc outerRc : Nat)
    (h : asetRc ≠ 0) :
    (sfc_mae_flow_remove_run true 0 asetRc outerRc).2 =
      ((sfc_mae_flow_insert_run true 0 0 0 0 0).2.map stepCounterpart).reverse ∧
    FlowStep.outerRuleDisable ∈ (sfc_mae_flow_remove_run true 0 asetRc outerRc).2 ∧
    (sfc_mae_flow_remove_run true 0 asetRc outerRc).1 = outerRc := by
  refine ⟨rfl, ?_, rfl⟩
  simp [sfc_mae_flow_remove_run]

/-- Witness for C9 with a failing action-set disable (rc 5) and a
successful outer-rule disable. -/
theorem c9_flow_remove_reverse_order_tolerant_witness :
    (sfc_mae_flow_remove_run true 0 5 0).2 =
      ((sfc_mae_flow_insert_run true 0 0 0 0 0).2.map stepCounterpart).reverse ∧
    FlowStep.outerRuleDisable ∈ (sfc_mae_flow_remove_run true 0 5 0).2 ∧
    (sfc_mae_flow_remove_run true 0 5 0).1 = 0 :=
  c9_flow_remove_reverse_order_tolerant 5 0 (by decide)

/-- Adapter limits for the concrete C3 run: VXLAN encapsulation supported,
one outer-rule priority level. -/
def c3Cfg : SfcMaeCfg := { vxlanSupported := true, nb_outer_rule_prios_max := 1 }

/-- The C3 pattern: ETH (TPID 0x8100 exact), VLAN tci=0x0123,
IPV6 (no spec), UDP (no spec), VXLAN vni=0x123456 (default 24-bit full
mask). -/
def c3Pattern : List PatternItem :=
  [ PatternItem.eth
      (some { dst := [0, 0, 0, 0, 0, 0], src := [0, 0, 0, 0, 0, 0], typ := 0x8100 })
      { dst := [0, 0, 0, 0, 0, 0], src := [0, 0, 0, 0, 0, 0], typ := 0xffff },
    PatternItem.vlan (some { tci := 0x0123, inner_typ := 0 })
      { tci := 0xffff, inner_typ := 0 },
    PatternItem.ipv6 none
      { src_addr := [], dst_addr := [], proto := 0, hop_limits := 0, vtc_flow := 0 },
    PatternItem.udp none { src_port := 0, dst_port := 0 },
    PatternItem.vxlan (some { vni := [0x12, 0x34, 0x56] })
      { vni := [0xff, 0xff, 0xff] } ]

/-- C3 counterexample: compiling the pattern succeeds and produces an
OUTER spec that contains no write of the tunnel-identifier field
ENC_VNET_ID_BE at all — contrary to the claim that the OUTER spec carries
VNET_ID_BE = 0x00123456/0x00ffffff.  (The tunnel item switches the active
spec pointer to ACTION before the VNI field is written.) -/
theorem c3_vni_not_in_outer_spec :
    (sfc_mae_rule_parse_pattern c3Cfg c3Pattern 0).isSome = true ∧
    (sfc_mae_rule_parse_pattern c3Cfg c3Pattern 0).map
      (fun ps => ps.outerWrites.any (fun w => w.field == MaeField.ENC_VNET_ID_BE)) =
      some false := by
  decide

/-- C3 amended: for the same pattern, the tunnel identifier is written as
an exact match into the ACTION spec (the spec active after the tunnel
item's switch), as field ENC_VNET_ID_BE with the 24-bit network-order VNI
padded into the 32-bit field: value 0x00123456, mask 0x00ffffff; the OUTER
spec covers the pre-tunnel layers. -/
theorem c3_vni_written_to_action_spec :
    (sfc_mae_rule_parse_pattern c3Cfg c3Pattern 0).map
      (fun ps => ps.actionWrites.contains
        ⟨MaeField.ENC_VNET_ID_BE, [0x00, 0x12, 0x34, 0x56],
         [0x00, 0xff, 0xff, 0xff]⟩) = some true ∧
    (sfc_mae_rule_parse_pattern c3Cfg c3Pattern 0).map
      (fun ps => ps.encap_type) = some TunnelProtocol.vxlan := by
  decide

/-- A parse context whose pattern data carries only an L4 restriction on
the L3 next-protocol byte (the state after an L3 item with a wildcarded
next-protocol byte followed by an L4 item). -/
def ctxWithL4Restriction (rv : Nat) : SfcMaeParseCtx :=
  let pd := { patternDataZero with l3_next_proto_restriction_value := rv,
                                   l3_next_proto_restriction_mask := 0xff }
  { ctxInit with pattern_data := pd }

/-- C7: with an L4 item implying next-protocol rv (6 for TCP from
sfc_mae_rule_parse_item_tcp, 17 for UDP from sfc_mae_rule_parse_item_udp),
deferred resolution of the L3 next-protocol byte (a) turns a wildcarded
declaration into the implied value with full mask, (b) accepts an exact
declaration equal to the implied value, and (c) rejects every other
declared value/mask combination; the IP_PROTO field emitted by
sfc_mae_rule_process_pattern_data carries the resolved value and mask. -/
theorem c7_l3_next_proto_resolution (rv : Nat)
    (hrv : rv = IPPROTO_TCP ∨ rv = IPPROTO_UDP) :
    (∀ v : Nat, l3NextProtoResolve v 0 rv 0xff = some (rv, 0xff)) ∧
    l3NextProtoResolve rv 0xff rv 0xff = some (rv, 0xff) ∧
    (∀ v m : Nat, m ≠ 0 → (m ≠ 0xff ∨ v ≠ rv) →
      l3NextProtoResolve v m rv 0xff = none) ∧
    (sfc_mae_rule_parse_item_tcp none ⟨0, 0, 0⟩ ctxInit).map
      (fun c => (c.pattern_data.l3_next_proto_restriction_value,
                 c.pattern_data.l3_next_proto_restriction_mask)) =
      some (IPPROTO_TCP, 0xff) ∧
    (sfc_mae_rule_parse_item_udp none ⟨0, 0⟩ ctxInit).map
      (fun c => (c.pattern_data.l3_next_proto_restriction_value,
                 c.pattern_data.l3_next_proto_restriction_mask)) =
      some (IPPROTO_UDP, 0xff) ∧
    (sfc_mae_rule_process_pattern_data (ctxWithL4Restriction rv)).map
      (fun c => c.actionWrites) =
      some [⟨MaeField.ETHER_TYPE_BE, [0, 0], [0, 0]⟩,
            ⟨MaeField.IP_PROTO, [rv], [0xff]⟩] := by
  have hreject : ∀ v m : Nat, m ≠ 0 → (m ≠ 0xff ∨ v ≠ rv) →
      l3NextProtoResolve v m rv 0xff = none := by
    intro v m hm hvm
    unfold l3NextProtoResolve
    rw [if_pos rfl, if_neg hm, if_pos hvm]
  rcases hrv with h | h <;> subst h <;>
    exact ⟨fun v => rfl, by decide, hreject, rfl, rfl, by decide⟩

/-- Witness for C7 at rv = 6 (TCP): a wildcarded byte resolves to 6/0xff,
and the exact declaration 5/0xff contradicting the implied value is
rejected. -/
theorem c7_l3_next_proto_resolution_witness :
    l3NextProtoResolve 0 0 6 0xff = some (6, 0xff) ∧
    l3NextProtoResolve 5 0xff 6 0xff = none :=
  ⟨(c7_l3_next_proto_resolution 6 (Or.inl rfl)).1 0,
   (c7_l3_next_proto_resolution 6 (Or.inl rfl)).2.2.1 5 0xff (by decide) (by decide)⟩

/-- A set bit of a 16-bit mask lies below bit 16. -/
theorem maskBit_lt_sixteen {m j : Nat} (hm : m < 2 ^ 16)
    (hj : m.testBit j = true) : j < 16 := by
  by_contra hge
  have hlt : m < 2 ^ j :=
    lt_of_lt_of_le hm (Nat.pow_le_pow_right (by norm_num) (Nat.le_of_not_lt hge))
  rw [Nat.testBit_lt_two_pow hlt] at hj
  exact Bool.false_ne_true hj

/-- At every bit enforced by a 16-bit mask, forceWord yields the spec bit. -/
theorem forceWord_testBit (w m s j : Nat) (hm : m < 2 ^ 16)
    (hj : m.testBit j = true) :
    (forceWord w m s).testBit j = s.testBit j := by
  have hjlt : j < 16 := maskBit_lt_sixteen hm hj
  have h16 : (0xffff : Nat) = 2 ^ 16 - 1 := by norm_num
  unfold forceWord
  rw [Nat.testBit_lor, Nat.testBit_land, Nat.testBit_land, Nat.testBit_xor,
      h16, Nat.testBit_two_pow_sub_one, hj]
  simp [hjlt]

/-- forceItemWords preserves the buffer length. -/
theorem forceItemWords_length (ws ss ms : List Nat) :
    (forceItemWords ws ss ms).length = ws.length := by
  induction ws generalizing ss ms with
  | nil => cases ss <;> cases ms <;> rfl
  | cons w ws ih =>
    cases ss with
    | nil => rfl
    | cons s ss =>
      cases ms with
      | nil => rfl
      | cons m ms => simp [forceItemWords, ih]

/-- Within one item, the forced words agree with the spec words at every
mask-enforced bit. -/
theorem forceItemWords_getD (ws ss ms : List Nat) (k j : Nat)
    (hms : ∀ m ∈ ms, m < 2 ^ 16)
    (hlen : ms.length = ss.length) (hws : ss.length ≤ ws.length)
    (hj : (ms.getD k 0).testBit j = true) :
    ((forceItemWords ws ss ms).getD k 0).testBit j = (ss.getD k 0).testBit j := by
  induction ms generalizing ws ss k with
  | nil =>
    rw [List.getD_nil, Nat.zero_testBit] at hj
    exact absurd hj (Bool.false_ne_true)
  | cons m ms ih =>
    cases ss with
    | nil => exact absurd hlen (by simp)
    | cons s ss =>
      cases ws with
      | nil => exact absurd hws (by simp)
      | cons w ws =>
        cases k with
        | zero =>
          simp only [forceItemWords, List.getD_cons_zero] at hj ⊢
          exact forceWord_testBit w m s j (hms m (by simp)) hj
        | succ k =>
          simp only [forceItemWords, List.getD_cons_succ] at hj ⊢
          exact ih ws ss k (fun x hx => hms x (by simp [hx]))
            (by simpa using hlen) (by simpa using hws) hj

/-- C5: after the word-wise mask pass of sfc_mae_header_force_item_masks,
the resulting header words agree with the items' spec words at every bit
position where the corresponding mask bit is 1, regardless of the buffer
contents (the defaults computed beforehand), provided each item's mask
covers its spec region (equal lengths), the masks are 16-bit values, and
the buffer covers all items. -/
theorem c5_header_force_item_masks_agrees
    (buf : List Nat) (items : List ParsedItem)
    (hlen : ∀ it ∈ items, it.maskWords.length = it.specWords.length)
    (hm16 : ∀ it ∈ items, ∀ m ∈ it.maskWords, m < 2 ^ 16)
    (hbuf : totalWords items ≤ buf.length)
    (k j : Nat)
    (hbit : ((itemsMaskFlat items).getD k 0).testBit j = true) :
    ((sfc_mae_header_force_item_masks buf items).getD k 0).testBit j =
      ((itemsSpecFlat items).getD k 0).testBit j := by
  induction items generalizing buf k with
  | nil =>
    rw [show itemsMaskFlat [] = [] from rfl, List.getD_nil, Nat.zero_testBit] at hbit
    exact absurd hbit (Bool.false_ne_true)
  | cons it rest ih =>
    have hit_len : it.maskWords.length = it.specWords.length :=
      hlen it (by simp)
    have hn_le : it.specWords.length ≤ buf.length := by
      have := hbuf
      unfold totalWords at this
      simp only [List.map_cons, List.sum_cons] at this
      omega
    have hhead_len : (forceItemWords (buf.take it.specWords.length)
        it.specWords it.maskWords).length = it.specWords.length := by
      rw [forceItemWords_length]
      simp [Nat.min_eq_left hn_le]
    have hmaskflat : itemsMaskFlat (it :: rest) =
        it.maskWords ++ itemsMaskFlat rest := by
      simp [itemsMaskFlat]
    have hspecflat : itemsSpecFlat (it :: rest) =
        it.specWords ++ itemsSpecFlat rest := by
      simp [itemsSpecFlat]
    rw [hmaskflat] at hbit
    by_cases hk : k < it.specWords.length
    · rw [show sfc_mae_header_force_item_masks buf (it :: rest) =
          forceItemWords (buf.take it.specWords.length) it.specWords it.maskWords ++
            sfc_mae_header_force_item_masks (buf.drop it.specWords.length) rest
          from rfl,
        List.getD_append _ _ _ _ (by omega), hspecflat,
        List.getD_append _ _ _ _ hk]
      rw [List.getD_append _ _ _ _ (by omega)] at hbit
      exact forceItemWords_getD _ _ _ k j (hm16 it (by simp)) hit_len
        (by simp [Nat.min_eq_left hn_le]) hbit
    · have hk2 : it.specWords.length ≤ k := Nat.le_of_not_lt hk
      rw [show sfc_mae_header_force_item_masks buf (it :: rest) =
          forceItemWords (buf.take it.specWords.length) it.specWords it.maskWords ++
            sfc_mae_header_force_item_masks (buf.drop it.specWords.length) rest
          from rfl,
        List.getD_append_right _ _ _ _ (by omega), hhead_len, hspecflat,
        List.getD_append_right _ _ _ _ hk2]
      rw [List.getD_append_right _ _ _ _ (by omega), hit_len] at hbit
      exact ih (buf.drop it.specWords.length) (fun x hx => hlen x (by simp [hx]))
        (fun x hx => hm16 x (by simp [hx]))
        (by
          unfold totalWords at hbuf ⊢
          simp only [List.map_cons, List.sum_cons] at hbuf
          simp only [List.length_drop]
          omega)
        (k - it.specWords.length) hbit

/-- Witness for C5 on a concrete two-item template over a buffer of
defaults: every mask-enforced bit of the result equals the spec bit, here
checked at word 0 bit 3 of the second item (flat word index 1). -/
theorem c5_header_force_item_masks_agrees_witness :
    ((sfc_mae_header_force_item_masks [0xAAAA, 0x5555]
        [⟨[0x1234], [0x0F0F]⟩, ⟨[0xBEEF], [0x00FF]⟩]).getD 1 0).testBit 3 =
      ((itemsSpecFlat [⟨[0x1234], [0x0F0F]⟩, ⟨[0xBEEF], [0x00FF]⟩]).getD 1 0).testBit 3 :=
  c5_header_force_item_masks_agrees [0xAAAA, 0x5555]
    [⟨[0x1234], [0x0F0F]⟩, ⟨[0xBEEF], [0x00FF]⟩]
    (by decide) (by decide) (by decide) 1 3 (by decide)

end SfcMae
